import Mathlib

/-!
Verification of the scoring pipeline of the NFL prediction-pool web app.

The embedded code lives in `src/old_files_backup/app copy 8.py` (the fuller
variant, called "v8" below where the two files differ) and
`src/old_files_backup/app.py` (called "v0" where it differs).  Database
tables are embedded as Lean lists of records; the SQLAlchemy queries the
functions run are embedded as the corresponding list operations, with the
ordering/grouping guarantees of the SQL stated as hypotheses where a theorem
needs them.  Presentation-only columns (team names, external ids, user
credentials) play no role in any claim and are omitted from the records.
-/

/-- Outcome tag: the three-valued domain of `Jogo.resultado` and
`Palpite.escolha` (strings `time1_vence` / `time2_vence` / `empate` in the
source, `app copy 8.py` lines 72 and 85). -/
inductive Outcome
  | time1_vence
  | time2_vence
  | empate
deriving DecidableEq

/-- A game (`class Jogo`, `app copy 8.py` lines 65-79).  `data_hora` is the
UTC kick-off instant, embedded as seconds since the Unix epoch
(1970-01-01 00:00 UTC, a Thursday).  `resultado` and the two final scores are
nullable columns: `none` means not yet finalized. -/
structure Jogo where
  id : Nat
  semana : Nat
  data_hora : Nat
  resultado : Option Outcome
  placar_time1_final : Option Int
  placar_time2_final : Option Int
deriving DecidableEq

/-- A prediction (`class Palpite`, `app copy 8.py` lines 81-93).
`pontuacao_recebida` is the raw-points field, default 0, the only field the
scorer mutates. -/
structure Palpite where
  participante_id : Nat
  jogo_id : Nat
  escolha : Outcome
  placar_time1 : Int
  placar_time2 : Int
  pontuacao_recebida : Int
deriving DecidableEq

/-- One participant's F1-style point total for one round
(`class PontuacaoRodada`, `app copy 8.py` lines 103-111). -/
structure PontuacaoRodada where
  participante_id : Nat
  semana : Nat
  pontos_f1 : Int
deriving DecidableEq

/-- Python `datetime.weekday()` of a UTC instant given as seconds since the
epoch: Monday = 0 .. Sunday = 6.  The epoch day was a Thursday, whose
`weekday()` is 3. -/
def weekdayUTC (t : Nat) : Nat :=
  (t / 86400 + 3) % 7

/-- Python `datetime.hour` of a UTC instant given as seconds since the
epoch. -/
def hourUTC (t : Nat) : Nat :=
  t % 86400 / 3600

/-- `is_prime_game` (`app copy 8.py` lines 127-142; the copy in `app.py`
lines 110-130 is textually identical in effect): the game is prime when its
UTC hour lies in [0,4] and its UTC weekday is Friday (4), Monday (0) or
Tuesday (1). -/
def is_prime_game (jogo : Jogo) : Bool :=
  let dia_semana_utc := weekdayUTC jogo.data_hora
  let hora_utc := hourUTC jogo.data_hora
  let is_madrugada_utc := decide (0 ≤ hora_utc ∧ hora_utc ≤ 4)
  is_madrugada_utc && (dia_semana_utc == 4 || dia_semana_utc == 0 || dia_semana_utc == 1)

/-- Body of the scoring loop of `calcular_e_atualizar_pontuacoes_jogo`
(`app copy 8.py` lines 176-196, identical in `app.py` lines 144-163): the
raw points of one prediction against a finalized result.  The Python
accumulates into `pontuacao_atual`: start at 0; +1 when the outcome tag
matches; then +3 when the game is prime; then +1 for the exact score, or
else +1 for a matching absolute differential. -/
def pontuacao_palpite (prime : Bool) (escolha : Outcome) (p1 p2 : Int)
    (res : Outcome) (f1 f2 : Int) : Int :=
  if escolha = res then
    ((1 : Int) + (if prime then 3 else 0)) +
      (if p1 = f1 ∧ p2 = f2 then 1
       else if (p1 - p2).natAbs = (f1 - f2).natAbs then 1 else 0)
  else 0

/-- `calcular_e_atualizar_pontuacoes_jogo` of `app copy 8.py` (lines
160-202).  The palpite table is passed in full; the query
`Palpite.query.filter_by(jogo_id=jogo.id)` and the in-place mutation of each
returned row are embedded as a map that rewrites exactly the rows of this
game.  When the game's result is unset the function zeroes the raw points of
this game's predictions and returns `false`; otherwise it stores each
prediction's freshly computed points and returns `true`.  (Writing the value
only when it differs, as the Python does, leaves the same final state.) -/
def calcular_e_atualizar_pontuacoes_jogo (jogo : Jogo) (palpites : List Palpite) :
    Bool × List Palpite :=
  match jogo.resultado, jogo.placar_time1_final, jogo.placar_time2_final with
  | some res, some f1, some f2 =>
      (true, palpites.map (fun p =>
        if p.jogo_id = jogo.id then
          { p with pontuacao_recebida :=
              pontuacao_palpite (is_prime_game jogo) p.escolha p.placar_time1 p.placar_time2 res f1 f2 }
        else p))
  | _, _, _ =>
      (false, palpites.map (fun p =>
        if p.jogo_id = jogo.id then { p with pontuacao_recebida := 0 } else p))

/-- `calcular_e_atualizar_pontuacoes_jogo` of `app.py` (lines 133-170): the
same computation, except that on an unset result it returns `false` at once
without touching any prediction (`app.py` lines 137-138 have no zeroing
loop). -/
def calcular_e_atualizar_pontuacoes_jogo_v0 (jogo : Jogo) (palpites : List Palpite) :
    Bool × List Palpite :=
  match jogo.resultado, jogo.placar_time1_final, jogo.placar_time2_final with
  | some res, some f1, some f2 =>
      (true, palpites.map (fun p =>
        if p.jogo_id = jogo.id then
          { p with pontuacao_recebida :=
              pontuacao_palpite (is_prime_game jogo) p.escolha p.placar_time1 p.placar_time2 res f1 f2 }
        else p))
  | _, _, _ => (false, palpites)

/-- `todos_jogos_semana_finalizados` (`app copy 8.py` lines 204-215,
identical in `app.py` lines 172-184): the round is complete when its game
list is nonempty and no game of the round has a null result field. -/
def todos_jogos_semana_finalizados (semana : Nat) (jogos : List Jogo) : Bool :=
  if (jogos.filter (fun j => j.semana == semana)).isEmpty then false
  else
    (jogos.filter (fun j => j.semana == semana)).all (fun j =>
      !(j.resultado.isNone || j.placar_time1_final.isNone || j.placar_time2_final.isNone))

/-- `pontos_f1_tabela` (`app copy 8.py` line 222, `app.py` line 191). -/
def pontos_f1_tabela : List Int :=
  [25, 18, 15, 12, 10, 8, 6, 4, 2, 1]

/-- The ranking walk of `calcular_pontos_f1_por_rodada` (`app copy 8.py`
lines 243-264, identical in `app.py` lines 210-241 up to how each row is
persisted).  The input list embeds the SQL aggregate
`(participante_id, sum of pontuacao_recebida over the round)` already sorted
descending by total, as the query's `order_by(... .desc())` delivers it.
The three accumulators are the loop's `i`, `posicao_atual` and
`ultima_pontuacao_raw`; the walk stops at the first zero total and otherwise
emits `(participante_id, pontos_f1)` for each entry. -/
def rankWalk : List (Nat × Int) → Nat → Nat → Int → List (Nat × Int)
  | [], _, _, _ => []
  | (pid, total) :: rest, i, posicao_atual, ultima_pontuacao_raw =>
    if total = 0 then []
    else
      let posicao := if total < ultima_pontuacao_raw then i else posicao_atual
      let pontos_f1 :=
        if posicao < pontos_f1_tabela.length then pontos_f1_tabela.getD posicao 0 else 0
      (pid, pontos_f1) :: rankWalk rest (i + 1) posicao total

/-- The same walk instrumented to also emit the value `posicao_atual` held
when the entry was awarded: each output entry is
`(participante_id, posicao, pontos_f1)`.  This is a verification artifact
used to speak about the assigned position; `rankWalk_eq_rankWalkP` relates
it to `rankWalk`. -/
def rankWalkP : List (Nat × Int) → Nat → Nat → Int → List (Nat × Nat × Int)
  | [], _, _, _ => []
  | (pid, total) :: rest, i, posicao_atual, ultima_pontuacao_raw =>
    if total = 0 then []
    else
      let posicao := if total < ultima_pontuacao_raw then i else posicao_atual
      let pontos_f1 :=
        if posicao < pontos_f1_tabela.length then pontos_f1_tabela.getD posicao 0 else 0
      (pid, posicao, pontos_f1) :: rankWalkP rest (i + 1) posicao total

/-- `calcular_pontos_f1_por_rodada` of `app copy 8.py` (lines 217-268): it
first deletes every `PontuacaoRodada` row of the round
(`PontuacaoRodada.query.filter_by(semana=semana).delete()`, line 236) and
then inserts one fresh row per entry the ranking walk emits.  State in,
state out: the function maps the prior row table to the new one. -/
def calcular_pontos_f1_por_rodada_v8 (semana : Nat) (aggregates : List (Nat × Int))
    (rows : List PontuacaoRodada) : List PontuacaoRodada :=
  rows.filter (fun r => !(r.semana == semana)) ++
    (rankWalk aggregates 0 0 (-1)).map (fun e => ⟨e.1, semana, e.2⟩)

/-- The per-entry upsert of `calcular_pontos_f1_por_rodada` in `app.py`
(lines 226-239): update the existing `(participante_id, semana)` row when
one exists, otherwise insert a new one.  The table's unique constraint on
`(participante_id, semana)` means at most one row matches; rewriting every
matching row is the same update under that invariant. -/
def upsertPontuacaoRodada (rows : List PontuacaoRodada) (pid semana : Nat)
    (pts : Int) : List PontuacaoRodada :=
  if rows.any (fun r => r.participante_id == pid && r.semana == semana) then
    rows.map (fun r =>
      if r.participante_id == pid && r.semana == semana then
        { r with pontos_f1 := pts }
      else r)
  else rows ++ [⟨pid, semana, pts⟩]

/-- `calcular_pontos_f1_por_rodada` of `app.py` (lines 186-243): no delete;
each entry the ranking walk emits is upserted into the prior row table. -/
def calcular_pontos_f1_por_rodada_v0 (semana : Nat) (aggregates : List (Nat × Int))
    (rows : List PontuacaoRodada) : List PontuacaoRodada :=
  (rankWalk aggregates 0 0 (-1)).foldl
    (fun rs e => upsertPontuacaoRodada rs e.1 semana e.2) rows

/-! ## Helper lemmas -/

/-- `rankWalk` is the projection of the instrumented walk that drops the
recorded position. -/
theorem rankWalk_eq_rankWalkP (l : List (Nat × Int)) :
    ∀ i p u, rankWalk l i p u = (rankWalkP l i p u).map (fun e => (e.1, e.2.2)) := by
  induction l with
  | nil => intro i p u; rfl
  | cons a rest ih =>
    intro i p u
    obtain ⟨pid, total⟩ := a
    by_cases h : total = 0
    · simp [rankWalk, rankWalkP, h]
    · simp [rankWalk, rankWalkP, h, ih]

/-- Every entry the instrumented walk awards at a position of 10 or more
carries 0 points. -/
theorem rankWalkP_pts_zero_of_pos_ge (l : List (Nat × Int)) :
    ∀ i p u pid pos pts, (pid, pos, pts) ∈ rankWalkP l i p u → 10 ≤ pos → pts = 0 := by
  induction l with
  | nil => intro i p u pid pos pts h; simp [rankWalkP] at h
  | cons a rest ih =>
    intro i p u pid pos pts h hpos
    obtain ⟨pid0, total0⟩ := a
    by_cases h0 : total0 = 0
    · simp [rankWalkP, h0] at h
    · simp only [rankWalkP, h0, if_false, List.mem_cons] at h
      rcases h with h | h
      · rw [Prod.mk.injEq, Prod.mk.injEq] at h
        obtain ⟨h1, h2, h3⟩ := h
        rw [← h2] at h3
        have hlen : pontos_f1_tabela.length = 10 := by decide
        rw [hlen, if_neg (by omega)] at h3
        exact h3
      · exact ih _ _ _ _ _ _ h hpos

/-! ## C1 — tie example -/

/-- C1 counterexample: with aggregated raw totals 10, 10, 7 (participants
1, 2, 3, no other entries, no prior rows), the Round Ranker of
`app copy 8.py` assigns positions 0, 0, 2 — not 0, 0, 1 — and writes no row
awarding 18 points; participant 3's row carries 15 points. -/
theorem C1_counterexample :
    (⟨3, 1, 18⟩ : PontuacaoRodada) ∉ calcular_pontos_f1_por_rodada_v8 1 [(1, 10), (2, 10), (3, 7)] []
    ∧ (⟨3, 1, 15⟩ : PontuacaoRodada) ∈ calcular_pontos_f1_por_rodada_v8 1 [(1, 10), (2, 10), (3, 7)] []
    ∧ rankWalkP [(1, 10), (2, 10), (3, 7)] 0 0 (-1) = [(1, 0, 25), (2, 0, 25), (3, 2, 15)] := by
  decide

/-- C1 (amended): for a round whose aggregated raw totals are exactly
10, 10, 7 (three participants, no other entries), Round Ranker assigns
positions 0, 0, 2 and therefore awards F1 points 25, 25, 15. -/
theorem C1_amended_tie_points :
    rankWalkP [(1, 10), (2, 10), (3, 7)] 0 0 (-1) = [(1, 0, 25), (2, 0, 25), (3, 2, 15)]
    ∧ calcular_pontos_f1_por_rodada_v8 1 [(1, 10), (2, 10), (3, 7)] []
        = [⟨1, 1, 25⟩, ⟨2, 1, 25⟩, ⟨3, 1, 15⟩] := by
  decide

/-! ## C3 — raw points on a matched outcome -/

/-- C3: for a prediction whose outcome tag matches the finalized result,
the computed raw points are 2 on an exact score or a matching absolute
differential and 1 otherwise when the game is not prime, and 5 or 4
respectively when it is prime; the value is never 6. -/
theorem C3_pontuacao_outcome_match (prime : Bool) (escolha res : Outcome)
    (p1 p2 f1 f2 : Int) (h : escolha = res) :
    pontuacao_palpite prime escolha p1 p2 res f1 f2 =
      (if prime then
        (if (p1 = f1 ∧ p2 = f2) ∨ (p1 - p2).natAbs = (f1 - f2).natAbs then 5 else 4)
       else
        (if (p1 = f1 ∧ p2 = f2) ∨ (p1 - p2).natAbs = (f1 - f2).natAbs then 2 else 1))
    ∧ pontuacao_palpite prime escolha p1 p2 res f1 f2 ≠ 6 := by
  subst h
  unfold pontuacao_palpite
  rw [if_pos rfl]
  by_cases hex : p1 = f1 ∧ p2 = f2
  · cases prime <;> simp [hex]
  · by_cases hd : (p1 - p2).natAbs = (f1 - f2).natAbs <;>
      cases prime <;> simp [hex, hd]

/-- C3 witness: a prime game predicted exactly (draw 3-3) is worth 5. -/
theorem C3_pontuacao_outcome_match_witness :
    pontuacao_palpite true Outcome.empate 3 3 Outcome.empate 3 3 =
      (if (true : Bool) then
        (if ((3 : Int) = 3 ∧ (3 : Int) = 3) ∨ ((3 : Int) - 3).natAbs = ((3 : Int) - 3).natAbs then 5 else 4)
       else
        (if ((3 : Int) = 3 ∧ (3 : Int) = 3) ∨ ((3 : Int) - 3).natAbs = ((3 : Int) - 3).natAbs then 2 else 1))
    ∧ pontuacao_palpite true Outcome.empate 3 3 Outcome.empate 3 3 ≠ 6 :=
  C3_pontuacao_outcome_match true Outcome.empate Outcome.empate 3 3 3 3 rfl

/-! ## C4 — raw points on a mismatched outcome -/

/-- C4: for a prediction whose outcome tag differs from the finalized
result (a draw prediction on a non-draw result included), the computed raw
points are 0, whatever the predicted scores. -/
theorem C4_pontuacao_outcome_mismatch (prime : Bool) (escolha res : Outcome)
    (p1 p2 f1 f2 : Int) (h : escolha ≠ res) :
    pontuacao_palpite prime escolha p1 p2 res f1 f2 = 0 := by
  simp [pontuacao_palpite, h]

/-- C4 witness: a draw prediction on a game team 1 won scores 0 even though
the predicted differential (0) is wildly off and the scores are arbitrary. -/
theorem C4_pontuacao_outcome_mismatch_witness :
    (Outcome.empate ≠ Outcome.time1_vence)
    ∧ pontuacao_palpite false Outcome.empate 21 21 Outcome.time1_vence 21 7 = 0 :=
  ⟨by decide, C4_pontuacao_outcome_mismatch false Outcome.empate Outcome.time1_vence 21 21 21 7 (by decide)⟩

/-! ## C6 — prime-game predicate -/

/-- C6: `is_prime_game` holds exactly when the UTC hour is in [0,4] and the
UTC weekday is Friday (4), Monday (0) or Tuesday (1) in Python's
`weekday()` numbering; 93600 s after the epoch is Friday 02:00 UTC and that
game is prime, 237600 s is Saturday 18:00 UTC and that game is not. -/
theorem C6_is_prime_game_charact (jogo : Jogo) :
    (is_prime_game jogo = true ↔
      (hourUTC jogo.data_hora ≤ 4 ∧
        (weekdayUTC jogo.data_hora = 4 ∨ weekdayUTC jogo.data_hora = 0 ∨
          weekdayUTC jogo.data_hora = 1)))
    ∧ weekdayUTC 93600 = 4 ∧ hourUTC 93600 = 2
    ∧ is_prime_game ⟨1, 1, 93600, none, none, none⟩ = true
    ∧ weekdayUTC 237600 = 5 ∧ hourUTC 237600 = 18
    ∧ is_prime_game ⟨2, 1, 237600, none, none, none⟩ = false := by
  refine ⟨?_, by decide, by decide, by decide, by decide, by decide, by decide⟩
  simp only [is_prime_game, Bool.and_eq_true, Bool.or_eq_true, beq_iff_eq,
    decide_eq_true_iff]
  constructor
  · intro ⟨⟨_, h1⟩, h2⟩
    exact ⟨h1, by tauto⟩
  · intro ⟨h1, h2⟩
    exact ⟨⟨Nat.zero_le _, h1⟩, by tauto⟩

/-! ## C9 — round-completeness predicate -/

/-- A game's three result fields are all set exactly when the boolean test
run by the loop body of `todos_jogos_semana_finalizados` comes out true. -/
theorem result_fields_set_iff (a : Option Outcome) (b c : Option Int) :
    (!(a.isNone || b.isNone || c.isNone)) = true ↔
      (a ≠ none ∧ b ≠ none ∧ c ≠ none) := by
  cases a <;> cases b <;> cases c <;> simp

/-- C9: the round-completeness predicate is true exactly when the round has
at least one game and every game of the round has its outcome tag and both
final scores set; in particular a round with zero games yields false. -/
theorem C9_todos_jogos_charact (semana : Nat) (jogos : List Jogo) :
    todos_jogos_semana_finalizados semana jogos = true ↔
      (jogos.filter (fun j => j.semana == semana) ≠ [] ∧
        ∀ j ∈ jogos.filter (fun j => j.semana == semana),
          j.resultado ≠ none ∧ j.placar_time1_final ≠ none ∧
            j.placar_time2_final ≠ none) := by
  unfold todos_jogos_semana_finalizados
  rcases h : jogos.filter (fun j => j.semana == semana) with _ | ⟨j0, js⟩ <;> rw [h]
  · simp
  · rw [List.isEmpty_cons, if_neg (by decide)]
    rw [List.all_eq_true]
    constructor
    · intro hall
      exact ⟨by simp, fun j hj => (result_fields_set_iff _ _ _).mp (hall j hj)⟩
    · intro hx
      exact fun j hj => (result_fields_set_iff _ _ _).mpr (hx.2 j hj)

/-! ## C5 — behaviour on an unset result -/

/-- C5 counterexample: the `app.py` Game Scorer, invoked on a game with no
result and one prediction whose raw points are 5, returns `false` but
leaves the raw points at 5 instead of resetting them to zero. -/
theorem C5_counterexample :
    (calcular_e_atualizar_pontuacoes_jogo_v0 ⟨1, 1, 93600, none, none, none⟩
        [⟨1, 1, Outcome.time1_vence, 10, 7, 5⟩]).1 = false
    ∧ ((calcular_e_atualizar_pontuacoes_jogo_v0 ⟨1, 1, 93600, none, none, none⟩
        [⟨1, 1, Outcome.time1_vence, 10, 7, 5⟩]).2.map (fun p => p.pontuacao_recebida)) = [5] := by
  decide

/-- C5 (amended): on a game whose outcome tag or either final score is
unset, the `app copy 8.py` Game Scorer resets the raw points of every
prediction on the game to zero and returns `false`, while the `app.py`
variant returns `false` leaving every prediction untouched. -/
theorem C5_amended_unset_reset (jogo : Jogo) (palpites : List Palpite)
    (h : jogo.resultado = none ∨ jogo.placar_time1_final = none ∨
      jogo.placar_time2_final = none) :
    (calcular_e_atualizar_pontuacoes_jogo jogo palpites).1 = false
    ∧ (calcular_e_atualizar_pontuacoes_jogo jogo palpites).2.all
        (fun p => !(p.jogo_id == jogo.id) || (p.pontuacao_recebida == 0)) = true
    ∧ calcular_e_atualizar_pontuacoes_jogo_v0 jogo palpites = (false, palpites) := by
  obtain ⟨id0, sem0, dh0, r0, q1, q2⟩ := jogo
  have hzero : ∀ (ps : List Palpite),
      (ps.map (fun p => if p.jogo_id = id0 then { p with pontuacao_recebida := 0 } else p)).all
        (fun p => !(p.jogo_id == id0) || (p.pontuacao_recebida == 0)) = true := by
    intro ps
    induction ps with
    | nil => rfl
    | cons p ps ih => by_cases hp : p.jogo_id = id0 <;> simp [hp, ih]
  cases r0 <;> cases q1 <;> cases q2 <;>
    simp_all [calcular_e_atualizar_pontuacoes_jogo, calcular_e_atualizar_pontuacoes_jogo_v0] <;>
    exact hzero palpites

/-- C5 witness: a concrete unset game with one scored prediction. -/
theorem C5_amended_unset_reset_witness :
    ((⟨1, 1, 93600, none, none, none⟩ : Jogo).resultado = none ∨
      (⟨1, 1, 93600, none, none, none⟩ : Jogo).placar_time1_final = none ∨
      (⟨1, 1, 93600, none, none, none⟩ : Jogo).placar_time2_final = none)
    ∧ ((calcular_e_atualizar_pontuacoes_jogo ⟨1, 1, 93600, none, none, none⟩
          [⟨1, 1, Outcome.time1_vence, 10, 7, 5⟩]).1 = false
      ∧ (calcular_e_atualizar_pontuacoes_jogo ⟨1, 1, 93600, none, none, none⟩
          [⟨1, 1, Outcome.time1_vence, 10, 7, 5⟩]).2.all
          (fun p => !(p.jogo_id == (⟨1, 1, 93600, none, none, none⟩ : Jogo).id) ||
            (p.pontuacao_recebida == 0)) = true
      ∧ calcular_e_atualizar_pontuacoes_jogo_v0 ⟨1, 1, 93600, none, none, none⟩
          [⟨1, 1, Outcome.time1_vence, 10, 7, 5⟩]
        = (false, [⟨1, 1, Outcome.time1_vence, 10, 7, 5⟩])) :=
  ⟨Or.inl rfl,
    C5_amended_unset_reset ⟨1, 1, 93600, none, none, none⟩
      [⟨1, 1, Outcome.time1_vence, 10, 7, 5⟩] (Or.inl rfl)⟩

/-! ## C7 — delete-then-reinsert leaves no stale rows -/

/-- Rows kept by the round delete cannot test as rows of the round. -/
theorem filter_ne_then_eq (rows : List PontuacaoRodada) (s : Nat) :
    (rows.filter (fun r => !(r.semana == s))).filter (fun r => r.semana == s) = [] := by
  induction rows with
  | nil => rfl
  | cons r rs ih => by_cases h : r.semana = s <;> simp [List.filter_cons, h, ih]

/-- Filtering the kept rows again by "not this round" changes nothing. -/
theorem filter_ne_idem (rows : List PontuacaoRodada) (s : Nat) :
    (rows.filter (fun r => !(r.semana == s))).filter (fun r => !(r.semana == s))
      = rows.filter (fun r => !(r.semana == s)) := by
  induction rows with
  | nil => rfl
  | cons r rs ih => by_cases h : r.semana = s <;> simp [List.filter_cons, h, ih]

/-- Every row built by the ranking walk is a row of the round. -/
theorem new_rows_filter_eq (w : List (Nat × Int)) (s : Nat) :
    ((w.map (fun e => (⟨e.1, s, e.2⟩ : PontuacaoRodada))).filter (fun r => r.semana == s))
      = w.map (fun e => ⟨e.1, s, e.2⟩) := by
  induction w with
  | nil => rfl
  | cons e es ih => simp [List.filter_cons, ih]

/-- No row built by the ranking walk belongs to another round. -/
theorem new_rows_filter_ne (w : List (Nat × Int)) (s : Nat) :
    ((w.map (fun e => (⟨e.1, s, e.2⟩ : PontuacaoRodada))).filter
        (fun r => !(r.semana == s))) = [] := by
  induction w with
  | nil => rfl
  | cons e es ih => simp [List.filter_cons, ih]

/-- C7: after the `app copy 8.py` Round Ranker runs, the round's
`PontuacaoRodada` rows are exactly the ones derived in this run — every
prior row of the round is discarded — and rows of other rounds are left
as they were. -/
theorem C7_round_rows_replaced (semana : Nat) (aggregates : List (Nat × Int))
    (rows : List PontuacaoRodada) :
    (calcular_pontos_f1_por_rodada_v8 semana aggregates rows).filter
        (fun r => r.semana == semana)
      = (rankWalk aggregates 0 0 (-1)).map (fun e => ⟨e.1, semana, e.2⟩)
    ∧ (calcular_pontos_f1_por_rodada_v8 semana aggregates rows).filter
        (fun r => !(r.semana == semana))
      = rows.filter (fun r => !(r.semana == semana)) := by
  unfold calcular_pontos_f1_por_rodada_v8
  rw [List.filter_append, List.filter_append]
  rw [filter_ne_then_eq, filter_ne_idem, new_rows_filter_eq, new_rows_filter_ne]
  simp

/-! ## C2 — position 10 and beyond -/

/-- C2 counterexample: with eleven distinct nonzero totals, participant 11
holds position 10 (outside the top ten) and the Round Ranker still writes a
`PontuacaoRodada` row for them, carrying 0 points — the claim's "no row is
written" fails. -/
theorem C2_counterexample :
    ((11 : Nat), (2 : Int)) ∈
        ([(1, 12), (2, 11), (3, 10), (4, 9), (5, 8), (6, 7), (7, 6), (8, 5), (9, 4), (10, 3), (11, 2)] : List (Nat × Int))
    ∧ ((11 : Nat), (10 : Nat), (0 : Int)) ∈
        rankWalkP [(1, 12), (2, 11), (3, 10), (4, 9), (5, 8), (6, 7), (7, 6), (8, 5), (9, 4), (10, 3), (11, 2)] 0 0 (-1)
    ∧ (⟨11, 1, 0⟩ : PontuacaoRodada) ∈
        calcular_pontos_f1_por_rodada_v8 1
          [(1, 12), (2, 11), (3, 10), (4, 9), (5, 8), (6, 7), (7, 6), (8, 5), (9, 4), (10, 3), (11, 2)] [] := by
  decide

/-- C2 (amended): every participant the ranking walk awards at a position
of 10 or more receives 0 points, and a `PontuacaoRodada` row carrying 0
points is written for them (unlike zero-total participants, who get no
row). -/
theorem C2_amended_zero_row (l : List (Nat × Int)) (semana pid pos : Nat) (pts : Int)
    (rows : List PontuacaoRodada)
    (hmem : (pid, pos, pts) ∈ rankWalkP l 0 0 (-1)) (hpos : 10 ≤ pos) :
    pts = 0 ∧ (⟨pid, semana, 0⟩ : PontuacaoRodada) ∈
      calcular_pontos_f1_por_rodada_v8 semana l rows := by
  have hz : pts = 0 := rankWalkP_pts_zero_of_pos_ge l 0 0 (-1) pid pos pts hmem hpos
  refine ⟨hz, ?_⟩
  unfold calcular_pontos_f1_por_rodada_v8
  refine List.mem_append_right _ ?_
  rw [rankWalk_eq_rankWalkP, List.map_map]
  subst hz
  exact List.mem_map.mpr ⟨(pid, pos, 0), hmem, rfl⟩

/-- C2 witness: the eleven-participant round instantiated. -/
theorem C2_amended_zero_row_witness :
    (((11 : Nat), (10 : Nat), (0 : Int)) ∈
        rankWalkP [(1, 12), (2, 11), (3, 10), (4, 9), (5, 8), (6, 7), (7, 6), (8, 5), (9, 4), (10, 3), (11, 2)] 0 0 (-1))
    ∧ ((10 : Nat) ≤ 10)
    ∧ ((0 : Int) = 0 ∧ (⟨11, 1, 0⟩ : PontuacaoRodada) ∈
        calcular_pontos_f1_por_rodada_v8 1
          [(1, 12), (2, 11), (3, 10), (4, 9), (5, 8), (6, 7), (7, 6), (8, 5), (9, 4), (10, 3), (11, 2)] []) :=
  ⟨by decide, by decide,
    C2_amended_zero_row
      [(1, 12), (2, 11), (3, 10), (4, 9), (5, 8), (6, 7), (7, 6), (8, 5), (9, 4), (10, 3), (11, 2)]
      1 11 10 0 [] (by decide) (by decide)⟩

/-! ## C8 — zero raw total means no row -/

/-- A participant whose (unique) aggregate entry is a zero total is never
emitted by the ranking walk: either the walk stops at that entry, or the
entry lies past the stopping point. -/
theorem rankWalk_not_mem_of_zero (l : List (Nat × Int)) :
    ∀ i p u pid, (l.map Prod.fst).Nodup → (pid, (0 : Int)) ∈ l →
      ∀ e ∈ rankWalk l i p u, e.1 ≠ pid := by
  induction l with
  | nil => intro i p u pid _ h; simp at h
  | cons a rest ih =>
    intro i p u pid hnd hmem e he
    obtain ⟨pid0, total0⟩ := a
    by_cases h0 : total0 = 0
    · simp [rankWalk, h0] at he
    · simp only [rankWalk, h0, if_false] at he
      have hmem' : (pid, (0 : Int)) ∈ rest := by
        rcases List.mem_cons.mp hmem with h | h
        · exact absurd (congrArg Prod.snd h).symm h0
        · exact h
      have hpid0 : pid0 ≠ pid := by
        intro hcontra
        subst hcontra
        have : pid0 ∈ rest.map Prod.fst :=
          List.mem_map.mpr ⟨(pid0, 0), hmem', rfl⟩
        simp only [List.map_cons, List.nodup_cons] at hnd
        exact hnd.1 this
      rcases List.mem_cons.mp he with h | h
      · rw [h]; exact hpid0
      · exact ih _ _ _ pid (by simp only [List.map_cons, List.nodup_cons] at hnd; exact hnd.2)
          hmem' e h

/-- The ranking walk terminates at the first zero total: it only ever
consumes the longest zero-free leading segment of its input. -/
theorem rankWalk_stops_at_zero (l : List (Nat × Int)) :
    ∀ i p u, rankWalk l i p u = rankWalk (l.takeWhile (fun e => !(e.2 == 0))) i p u := by
  induction l with
  | nil => intro i p u; rfl
  | cons a rest ih =>
    intro i p u
    obtain ⟨pid0, total0⟩ := a
    by_cases h0 : total0 = 0
    · simp [rankWalk, List.takeWhile_cons, h0]
    · have hcond : (!(total0 == 0)) = true := by simp [h0]
      rw [List.takeWhile_cons, if_pos hcond]
      simp only [rankWalk, h0, if_false]
      rw [ih]

/-- C8: a participant whose aggregated raw total for the round is exactly 0
receives no `PontuacaoRodada` row for the round from the Round Ranker, and
the ranking walk terminates at the first zero total, excluding every entry
from there on. -/
theorem C8_zero_total_no_row (aggregates : List (Nat × Int)) (semana pid : Nat)
    (rows : List PontuacaoRodada)
    (hnd : (aggregates.map Prod.fst).Nodup)
    (_hsorted : List.Sorted (fun a b : Nat × Int => b.2 ≤ a.2) aggregates)
    (hmem : (pid, (0 : Int)) ∈ aggregates) :
    (calcular_pontos_f1_por_rodada_v8 semana aggregates rows).all
        (fun r => !((r.semana == semana) && (r.participante_id == pid))) = true
    ∧ rankWalk aggregates 0 0 (-1)
        = rankWalk (aggregates.takeWhile (fun e => !(e.2 == 0))) 0 0 (-1) := by
  refine ⟨?_, rankWalk_stops_at_zero aggregates 0 0 (-1)⟩
  rw [List.all_eq_true]
  intro r hr
  unfold calcular_pontos_f1_por_rodada_v8 at hr
  rcases List.mem_append.mp hr with hr | hr
  · obtain ⟨_, hne⟩ := List.mem_filter.mp hr
    simp only [Bool.not_eq_true', beq_eq_false_iff_ne] at hne
    simp [hne]
  · obtain ⟨e, hew, heq⟩ := List.mem_map.mp hr
    have hne := rankWalk_not_mem_of_zero aggregates 0 0 (-1) pid hnd hmem e hew
    rw [← heq]
    simp [hne]

/-- C8 witness: participant 2 totals 0 in round 1 (sorted, distinct ids)
and gets no round-1 row even though a round-2 row of theirs is on file. -/
theorem C8_zero_total_no_row_witness :
    ((([(1, 5), (2, 0)] : List (Nat × Int)).map Prod.fst).Nodup)
    ∧ List.Sorted (fun a b : Nat × Int => b.2 ≤ a.2) [(1, 5), (2, 0)]
    ∧ ((2 : Nat), (0 : Int)) ∈ ([(1, 5), (2, 0)] : List (Nat × Int))
    ∧ ((calcular_pontos_f1_por_rodada_v8 1 [(1, 5), (2, 0)] [⟨2, 2, 18⟩]).all
        (fun r => !((r.semana == 1) && (r.participante_id == 2))) = true
      ∧ rankWalk [(1, 5), (2, 0)] 0 0 (-1)
        = rankWalk (([(1, 5), (2, 0)] : List (Nat × Int)).takeWhile (fun e => !(e.2 == 0))) 0 0 (-1)) :=
  ⟨by decide, by decide, by decide,
    C8_zero_total_no_row [(1, 5), (2, 0)] 1 2 [⟨2, 2, 18⟩] (by decide) (by decide) (by decide)⟩

/-! ## C10 — the two Round Ranker variants -/

/-- The participant ids the ranking walk emits form a sublist of the
aggregate's participant ids. -/
theorem rankWalk_pids_sublist (l : List (Nat × Int)) :
    ∀ i p u, List.Sublist ((rankWalk l i p u).map Prod.fst) (l.map Prod.fst) := by
  induction l with
  | nil => intro i p u; simp [rankWalk]
  | cons a rest ih =>
    intro i p u
    obtain ⟨pid0, total0⟩ := a
    by_cases h0 : total0 = 0
    · simp [rankWalk, h0]
    · simp only [rankWalk, h0, if_false, List.map_cons]
      exact List.Sublist.cons₂ _ (ih _ _ _)

/-- Folding the `app.py` upsert over walk entries with fresh participant
ids, starting from a table holding no row of the round for any of those
ids, appends one new row per entry. -/
theorem foldl_upsert_eq_append (s : Nat) :
    ∀ (new : List (Nat × Int)) (rows : List PontuacaoRodada),
      (new.map Prod.fst).Nodup →
      (∀ r ∈ rows, r.semana = s → r.participante_id ∉ new.map Prod.fst) →
      new.foldl (fun rs e => upsertPontuacaoRodada rs e.1 s e.2) rows
        = rows ++ new.map (fun e => ⟨e.1, s, e.2⟩) := by
  intro new
  induction new with
  | nil => intro rows _ _; simp
  | cons e es ih =>
    intro rows hnd hdisj
    obtain ⟨pid, pts⟩ := e
    have hany : rows.any (fun r => r.participante_id == pid && r.semana == s) = false := by
      rw [List.any_eq_false]
      intro r hr
      by_cases hs : r.semana = s
      · have hni := hdisj r hr hs
        simp only [List.map_cons, List.mem_cons] at hni
        push_neg at hni
        simp [hni.1]
      · simp [hs]
    have hup : upsertPontuacaoRodada rows pid s pts = rows ++ [⟨pid, s, pts⟩] := by
      unfold upsertPontuacaoRodada
      rw [hany]
      simp
    have hnd' : (es.map Prod.fst).Nodup := by
      simp only [List.map_cons, List.nodup_cons] at hnd
      exact hnd.2
    have hdisj' : ∀ r ∈ rows ++ [(⟨pid, s, pts⟩ : PontuacaoRodada)], r.semana = s →
        r.participante_id ∉ es.map Prod.fst := by
      intro r hr hs
      rcases List.mem_append.mp hr with hr | hr
      · have hni := hdisj r hr hs
        simp only [List.map_cons, List.mem_cons] at hni
        push_neg at hni
        exact hni.2
      · simp only [List.mem_singleton] at hr
        subst hr
        simp only [List.map_cons, List.nodup_cons] at hnd
        exact hnd.1
    rw [List.foldl_cons, hup, ih (rows ++ [(⟨pid, s, pts⟩ : PontuacaoRodada)]) hnd' hdisj']
    simp

/-- C10 counterexample: same store (aggregates `[(1, 5)]`, one stale
round-1 row for participant 7, now absent from the aggregate): the
`app.py` upsert variant keeps the stale row, the `app copy 8.py`
delete-then-reinsert variant drops it, so the final round-1 row sets
differ. -/
theorem C10_counterexample :
    (⟨7, 1, 25⟩ : PontuacaoRodada) ∈ calcular_pontos_f1_por_rodada_v0 1 [(1, 5)] [⟨7, 1, 25⟩]
    ∧ (⟨7, 1, 25⟩ : PontuacaoRodada) ∉ calcular_pontos_f1_por_rodada_v8 1 [(1, 5)] [⟨7, 1, 25⟩] := by
  decide

/-- C10 (amended): the two variants produce the same final row table
whenever the store holds no prior `PontuacaoRodada` row for the round (and
the aggregate's participant ids are distinct, as the SQL `group_by`
guarantees); with a prior row for a participant absent from the current
ranking they genuinely diverge, as the counterexample shows. -/
theorem C10_amended_equiv (semana : Nat) (aggregates : List (Nat × Int))
    (rows : List PontuacaoRodada)
    (hrows : rows.all (fun r => !(r.semana == semana)) = true)
    (hnd : (aggregates.map Prod.fst).Nodup) :
    calcular_pontos_f1_por_rodada_v0 semana aggregates rows
      = calcular_pontos_f1_por_rodada_v8 semana aggregates rows := by
  have hprop : ∀ r ∈ rows, r.semana ≠ semana := by
    intro r hr
    have := List.all_eq_true.mp hrows r hr
    simpa using this
  have hfilter : rows.filter (fun r => !(r.semana == semana)) = rows := by
    rw [List.filter_eq_self]
    intro r hr
    simpa using hprop r hr
  have hwalknd : ((rankWalk aggregates 0 0 (-1)).map Prod.fst).Nodup :=
    hnd.sublist (rankWalk_pids_sublist aggregates 0 0 (-1))
  unfold calcular_pontos_f1_por_rodada_v0 calcular_pontos_f1_por_rodada_v8
  rw [hfilter]
  exact foldl_upsert_eq_append semana (rankWalk aggregates 0 0 (-1)) rows hwalknd
    (fun r hr hs => absurd hs (hprop r hr))

/-- C10 witness: two participants, a prior row only for another round. -/
theorem C10_amended_equiv_witness :
    (([⟨9, 2, 10⟩] : List PontuacaoRodada).all (fun r => !(r.semana == 1)) = true)
    ∧ ((([(1, 5), (2, 3)] : List (Nat × Int)).map Prod.fst).Nodup)
    ∧ calcular_pontos_f1_por_rodada_v0 1 [(1, 5), (2, 3)] [⟨9, 2, 10⟩]
        = calcular_pontos_f1_por_rodada_v8 1 [(1, 5), (2, 3)] [⟨9, 2, 10⟩] :=
  ⟨by decide, by decide,
    C10_amended_equiv 1 [(1, 5), (2, 3)] [⟨9, 2, 10⟩] (by decide) (by decide)⟩
